import Mathlib

/-!
Shallow embedding of `GraphAPIClient` (src/Python/graphapi_client.py), a thin
client for Microsoft Graph / SharePoint.  Each Python method is transliterated
into a Lean function over an explicit client state; the HTTP transport is
modelled as an environment function from requests to responses, and each run
records a trace of network effects (token-endpoint calls versus resource
calls).  Python exceptions are modelled with an explicit error type, Python
string truthiness with `pyTruthy`, and Python f-string interpolation of `None`
with `pyStrOpt`.  Local filesystem effects (reading the file to upload,
writing a downloaded file) are outside the model: the uploaded bytes are an
explicit argument and the downloaded bytes are the returned value.  Response
bodies are assumed to be well-formed JSON values (JSON parse errors are not
modelled); `requests.Response.raise_for_status` raises exactly for status
codes in [400, 600), which `raisesForStatus` mirrors.
-/

/-- JSON values, the shape of request and response bodies. -/
inductive Json where
  | null
  | bool (b : Bool)
  | num (n : Int)
  | str (s : String)
  | arr (items : List Json)
  | obj (fields : List (String × Json))

/-- Errors a client call can raise: `contextError` models the local
`ValueError` raised when a required cached identifier is missing;
`httpError` models `requests.HTTPError` from `raise_for_status`, carrying the
response status and body; `keyError`, `indexError` and `typeError` model the
corresponding Python faults from subscripting a decoded JSON value. -/
inductive PyErr where
  | contextError (msg : String)
  | httpError (status : Nat) (body : Json)
  | keyError (key : String)
  | indexError
  | typeError

/-- Payload of an HTTP request: none, a JSON body (`json=` keyword), raw
bytes (`data=` with bytes), or URL-encoded form fields (`data=` with a dict,
as used by the token request). -/
inductive Body where
  | empty
  | json (j : Json)
  | raw (bytes : List Nat)
  | form (fields : List (String × String))

/-- An HTTP request as handed to the transport. -/
structure HttpRequest where
  method : String
  url : String
  headers : List (String × String)
  body : Body
  params : List (String × String)

/-- An HTTP response: status code, decoded JSON body, and raw content bytes
(the latter only used by file download). -/
structure HttpResponse where
  status : Nat
  jsonBody : Json
  content : List Nat

/-- One observable network effect: a call to the token endpoint
(`requests.post` inside `get_access_token`) or a resource call through the
shared session (`self.session.request` inside `_request`). -/
inductive Effect where
  | tokenCall (req : HttpRequest)
  | resourceCall (req : HttpRequest)

/-- The environment: what the remote side answers to each request. -/
def Env : Type := HttpRequest → HttpResponse

/-- Azure AD credentials, supplied at construction and never mutated. -/
structure Credentials where
  client_id : String
  client_secret : String
  tenant_id : String
  tenant_name : String
  deriving DecidableEq

/-- The mutable attributes of a `GraphAPIClient` instance: credentials, base
URL, and the three lazily-populated caches `access_token`, `site_id`,
`drive_id` (each `None` after `__init__`). -/
structure ClientState where
  creds : Credentials
  base_url : String
  access_token : Option String
  site_id : Option String
  drive_id : Option String
  deriving DecidableEq

/-- The state a fresh `GraphAPIClient(client_id, ...)` starts in. -/
def initState (c : Credentials) : ClientState :=
  ⟨c, "https://graph.microsoft.com/v1.0", none, none, none⟩

/-- Result of running one client method: the returned value or raised error,
the client state afterwards, and the trace of network effects issued. -/
structure RunResult (α : Type) where
  res : Except PyErr α
  st : ClientState
  tr : List Effect

/-- Python truthiness of an optional string: `None` and the empty string are
falsy (this is what `if not self.access_token` / `if not self.drive_id`
test). -/
def pyTruthy : Option String → Bool
  | none => false
  | some s => s ≠ ""

/-- Python f-string interpolation of an optional string: `None` prints as the
literal text `None`. -/
def pyStrOpt : Option String → String
  | none => "None"
  | some s => s

/-- Mirror of `requests.Response.raise_for_status`: an `HTTPError` is raised
exactly for status codes in [400, 600); 1xx, 2xx and 3xx do not raise. -/
def raisesForStatus (status : Nat) : Bool :=
  400 ≤ status && status < 600

/-- Association lookup in a JSON object field list. -/
def lookupField : List (String × Json) → String → Option Json
  | [], _ => none
  | (k, v) :: rest, key => if k = key then some v else lookupField rest key

/-- Python `d[key]` on a decoded JSON value: `KeyError` when the key is
missing from an object, `TypeError` when the value is not an object. -/
def pyGetKey : Json → String → Except PyErr Json
  | .obj fields, key =>
      match lookupField fields key with
      | some v => .ok v
      | none => .error (.keyError key)
  | _, _ => .error .typeError

/-- Python `xs[i]` (non-negative index) on a decoded JSON value:
`IndexError` when the list is too short, `TypeError` when the value is not a
list. -/
def pyIndex : Json → Nat → Except PyErr Json
  | .arr items, i =>
      match items.get? i with
      | some v => .ok v
      | none => .error .indexError
  | _, _ => .error .typeError

/-- Transliteration of `get_access_token`: POST the client-credentials form
to the tenant token endpoint, `raise_for_status`, then cache and return
`response.json()['access_token']` (the model requires the field to be a
string, as the rest of the client treats it). -/
def get_access_token (env : Env) (st : ClientState) : RunResult String :=
  let token_url := "https://login.microsoftonline.com/" ++ st.creds.tenant_id
      ++ "/oauth2/v2.0/token"
  let data : List (String × String) :=
    [("grant_type", "client_credentials"),
     ("client_id", st.creds.client_id),
     ("client_secret", st.creds.client_secret),
     ("scope", "https://graph.microsoft.com/.default")]
  let req : HttpRequest := ⟨"POST", token_url, [], .form data, []⟩
  let resp := env req
  if raisesForStatus resp.status then
    ⟨.error (.httpError resp.status resp.jsonBody), st, [.tokenCall req]⟩
  else
    match pyGetKey resp.jsonBody "access_token" with
    | .ok (.str tok) => ⟨.ok tok, { st with access_token := some tok }, [.tokenCall req]⟩
    | .ok _ => ⟨.error .typeError, st, [.tokenCall req]⟩
    | .error e => ⟨.error e, st, [.tokenCall req]⟩

/-- Transliteration of `_get_headers`: authorization from the cached token
(interpolated the way a Python f-string would) plus the content type. -/
def _get_headers (st : ClientState) (content_type : String) : List (String × String) :=
  [("Authorization", "Bearer " ++ pyStrOpt st.access_token),
   ("Content-Type", content_type)]

/-- Tail of `_request` after the lazy token fetch: choose the headers (the
caller's, if supplied in kwargs, otherwise `_get_headers()`), issue the single
request through the shared session, and `raise_for_status`.  `tr` is the
trace accumulated by the token fetch, if one happened. -/
def sendRequest (env : Env) (st : ClientState) (method url : String) (body : Body)
    (headersArg : Option (List (String × String))) (params : List (String × String))
    (tr : List Effect) : RunResult HttpResponse :=
  let hdrs := match headersArg with
    | some h => h
    | none => _get_headers st "application/json"
  let req : HttpRequest := ⟨method, url, hdrs, body, params⟩
  let resp := env req
  if raisesForStatus resp.status then
    ⟨.error (.httpError resp.status resp.jsonBody), st, tr ++ [.resourceCall req]⟩
  else
    ⟨.ok resp, st, tr ++ [.resourceCall req]⟩

/-- Transliteration of `_request`: fetch the token on demand when the cache
is falsy, then issue the single request (headers are computed after the
fetch, so a default-header request sees the freshly cached token). -/
def _request (env : Env) (st : ClientState) (method url : String) (body : Body)
    (headersArg : Option (List (String × String))) (params : List (String × String)) :
    RunResult HttpResponse :=
  if pyTruthy st.access_token then
    sendRequest env st method url body headersArg params []
  else
    match get_access_token env st with
    | ⟨.ok _, st1, tr⟩ => sendRequest env st1 method url body headersArg params tr
    | ⟨.error e, st1, tr⟩ => ⟨.error e, st1, tr⟩

/-- Map the decoding step that follows a successful `_request`: on success
apply the decoder to the response, on error propagate the raised error.  The
client state and the trace pass through unchanged. -/
def RunResult.decodeWith (r : RunResult HttpResponse) (f : HttpResponse → Except PyErr α) :
    RunResult α :=
  match r.res with
  | .ok resp => ⟨f resp, r.st, r.tr⟩
  | .error e => ⟨.error e, r.st, r.tr⟩

/-- Forget the returned value, keeping the raised error, the final state and
the trace (used to quantify uniformly over operations). -/
def RunResult.discard (r : RunResult α) : RunResult Unit :=
  ⟨r.res.map (fun _ => ()), r.st, r.tr⟩

/-- Transliteration of `get_site_id`: GET the site by tenant-qualified name,
then cache and return `response.json()['id']`. -/
def get_site_id (env : Env) (st : ClientState) (site_name : String) : RunResult String :=
  let url := st.base_url ++ "/sites/" ++ st.creds.tenant_name
      ++ ".sharepoint.com:/sites/" ++ site_name
  match _request env st "GET" url .empty none [] with
  | ⟨.ok resp, st1, tr⟩ =>
      match pyGetKey resp.jsonBody "id" with
      | .ok (.str sid) => ⟨.ok sid, { st1 with site_id := some sid }, tr⟩
      | .ok _ => ⟨.error .typeError, st1, tr⟩
      | .error e => ⟨.error e, st1, tr⟩
  | ⟨.error e, st1, tr⟩ => ⟨.error e, st1, tr⟩

/-- Transliteration of `get_drive_id`: require a cached site id, GET the
site's drives, take `response.json()['value'][0]['id']` (indexing the first
drive without an emptiness check), cache it and return it. -/
def get_drive_id (env : Env) (st : ClientState) : RunResult String :=
  if pyTruthy st.site_id = false then
    ⟨.error (.contextError "Site ID not set. Call get_site_id first."), st, []⟩
  else
    let url := st.base_url ++ "/sites/" ++ pyStrOpt st.site_id ++ "/drives"
    match _request env st "GET" url .empty none [] with
    | ⟨.ok resp, st1, tr⟩ =>
        match pyGetKey resp.jsonBody "value" with
        | .ok drives =>
            match pyIndex drives 0 with
            | .ok first =>
                match pyGetKey first "id" with
                | .ok (.str did) => ⟨.ok did, { st1 with drive_id := some did }, tr⟩
                | .ok _ => ⟨.error .typeError, st1, tr⟩
                | .error e => ⟨.error e, st1, tr⟩
            | .error e => ⟨.error e, st1, tr⟩
        | .error e => ⟨.error e, st1, tr⟩
    | ⟨.error e, st1, tr⟩ => ⟨.error e, st1, tr⟩

/-- Transliteration of `create_folder`. -/
def create_folder (env : Env) (st : ClientState) (folder_name parent_id : String) :
    RunResult Json :=
  if pyTruthy st.drive_id = false then
    ⟨.error (.contextError "Drive ID not set. Call get_drive_id first."), st, []⟩
  else
    let url := st.base_url ++ "/drives/" ++ pyStrOpt st.drive_id ++ "/items/"
        ++ parent_id ++ "/children"
    let data := Json.obj
      [("name", .str folder_name),
       ("folder", .obj []),
       ("@microsoft.graph.conflictBehavior", .str "rename")]
    (_request env st "POST" url (.json data) none []).decodeWith (fun resp => .ok resp.jsonBody)

/-- Transliteration of `delete_file`. -/
def delete_file (env : Env) (st : ClientState) (file_id : String) : RunResult Unit :=
  if pyTruthy st.drive_id = false then
    ⟨.error (.contextError "Drive ID not set."), st, []⟩
  else
    let url := st.base_url ++ "/drives/" ++ pyStrOpt st.drive_id ++ "/items/" ++ file_id
    (_request env st "DELETE" url .empty none []).decodeWith (fun _ => .ok ())

/-- Transliteration of `rename_file`. -/
def rename_file (env : Env) (st : ClientState) (file_id new_name : String) : RunResult Json :=
  if pyTruthy st.drive_id = false then
    ⟨.error (.contextError "Drive ID not set."), st, []⟩
  else
    let url := st.base_url ++ "/drives/" ++ pyStrOpt st.drive_id ++ "/items/" ++ file_id
    let data := Json.obj [("name", .str new_name)]
    (_request env st "PATCH" url (.json data) none []).decodeWith (fun resp => .ok resp.jsonBody)

/-- Transliteration of `copy_file`. -/
def copy_file (env : Env) (st : ClientState) (file_id new_name destination_id : String) :
    RunResult Json :=
  if pyTruthy st.drive_id = false then
    ⟨.error (.contextError "Drive ID not set."), st, []⟩
  else
    let url := st.base_url ++ "/drives/" ++ pyStrOpt st.drive_id ++ "/items/"
        ++ file_id ++ "/copy"
    let data := Json.obj
      [("parentReference", .obj
          [("driveId", .str (pyStrOpt st.drive_id)),
           ("id", .str destination_id)]),
       ("name", .str new_name)]
    (_request env st "POST" url (.json data) none []).decodeWith (fun resp => .ok resp.jsonBody)

/-- Transliteration of `move_file`. -/
def move_file (env : Env) (st : ClientState) (file_id destination_folder_id : String) :
    RunResult Json :=
  if pyTruthy st.drive_id = false then
    ⟨.error (.contextError "Drive ID not set."), st, []⟩
  else
    let url := st.base_url ++ "/drives/" ++ pyStrOpt st.drive_id ++ "/items/" ++ file_id
    let data := Json.obj
      [("parentReference", .obj [("id", .str destination_folder_id)])]
    (_request env st "PATCH" url (.json data) none []).decodeWith (fun resp => .ok resp.jsonBody)

/-- Transliteration of `get_file_metadata`. -/
def get_file_metadata (env : Env) (st : ClientState) (file_id : String) : RunResult Json :=
  if pyTruthy st.drive_id = false then
    ⟨.error (.contextError "Drive ID not set."), st, []⟩
  else
    let url := st.base_url ++ "/drives/" ++ pyStrOpt st.drive_id ++ "/items/" ++ file_id
    (_request env st "GET" url .empty none []).decodeWith (fun resp => .ok resp.jsonBody)

/-- Transliteration of `get_folder_contents` (returns `response.json()['value']`). -/
def get_folder_contents (env : Env) (st : ClientState) (folder_id : String) : RunResult Json :=
  if pyTruthy st.drive_id = false then
    ⟨.error (.contextError "Drive ID not set."), st, []⟩
  else
    let url := st.base_url ++ "/drives/" ++ pyStrOpt st.drive_id ++ "/items/"
        ++ folder_id ++ "/children"
    (_request env st "GET" url .empty none []).decodeWith (fun resp => pyGetKey resp.jsonBody "value")

/-- Transliteration of `search_files`. -/
def search_files (env : Env) (st : ClientState) (search_term : String) : RunResult Json :=
  if pyTruthy st.drive_id = false then
    ⟨.error (.contextError "Drive ID not set."), st, []⟩
  else
    let url := st.base_url ++ "/drives/" ++ pyStrOpt st.drive_id ++ "/root/search(q=\x27"
        ++ search_term ++ "\x27)"
    (_request env st "GET" url .empty none []).decodeWith (fun resp => pyGetKey resp.jsonBody "value")

/-- Transliteration of `download_file`; the local file write is outside the
model, so the downloaded bytes are the returned value. -/
def download_file (env : Env) (st : ClientState) (file_id output_path : String) :
    RunResult (List Nat) :=
  if pyTruthy st.drive_id = false then
    ⟨.error (.contextError "Drive ID not set."), st, []⟩
  else
    let url := st.base_url ++ "/drives/" ++ pyStrOpt st.drive_id ++ "/items/"
        ++ file_id ++ "/content"
    (_request env st "GET" url .empty none []).decodeWith (fun resp => .ok resp.content)

/-- Mirror of `os.path.basename` on slash-separated paths. -/
def basename (p : String) : String :=
  (p.splitOn "/").getLastD ""

/-- Transliteration of `upload_file` (simple upload); the local file read is
outside the model, so the file's bytes are an explicit argument.  Note the
caller-supplied headers: authorization interpolated from the token cached at
method entry, and no content type. -/
def upload_file (env : Env) (st : ClientState) (file_path : String) (file_bytes : List Nat)
    (folder_id : String) : RunResult Json :=
  if pyTruthy st.drive_id = false then
    ⟨.error (.contextError "Drive ID not set."), st, []⟩
  else
    let filename := basename file_path
    let url := st.base_url ++ "/drives/" ++ pyStrOpt st.drive_id ++ "/items/"
        ++ folder_id ++ ":/" ++ filename ++ ":/content"
    (_request env st "PUT" url (.raw file_bytes)
        (some [("Authorization", "Bearer " ++ pyStrOpt st.access_token)]) []).decodeWith
      (fun resp => .ok resp.jsonBody)

/-- Transliteration of `create_upload_session`. -/
def create_upload_session (env : Env) (st : ClientState) (filename folder_id : String) :
    RunResult Json :=
  if pyTruthy st.drive_id = false then
    ⟨.error (.contextError "Drive ID not set."), st, []⟩
  else
    let url := st.base_url ++ "/drives/" ++ pyStrOpt st.drive_id ++ "/items/"
        ++ folder_id ++ ":/" ++ filename ++ ":/createUploadSession"
    let data := Json.obj
      [("item", .obj
          [("@microsoft.graph.conflictBehavior", .str "rename"),
           ("name", .str filename)])]
    (_request env st "POST" url (.json data) none []).decodeWith (fun resp => .ok resp.jsonBody)

/-- Transliteration of `upload_chunk`: no context precondition; the headers
are built by the caller from the token cached at method entry, the chunk
length, and the `Content-Range` interpolated verbatim from the supplied
offsets. -/
def upload_chunk (env : Env) (st : ClientState) (session_url : String)
    (chunk_data : List Nat) (start end_ total_size : Int) : RunResult Json :=
  let headers :=
    [("Authorization", "Bearer " ++ pyStrOpt st.access_token),
     ("Content-Length", toString chunk_data.length),
     ("Content-Range", "bytes " ++ toString start ++ "-" ++ toString end_
        ++ "/" ++ toString total_size)]
  (_request env st "PUT" session_url (.raw chunk_data) (some headers) []).decodeWith
    (fun resp => .ok resp.jsonBody)

/-- Transliteration of `get_upload_session_status`: no context precondition. -/
def get_upload_session_status (env : Env) (st : ClientState) (session_url : String) :
    RunResult Json :=
  (_request env st "GET" session_url .empty none []).decodeWith (fun resp => .ok resp.jsonBody)

/-- Transliteration of `cancel_upload_session`: no context precondition. -/
def cancel_upload_session (env : Env) (st : ClientState) (session_url : String) :
    RunResult Unit :=
  (_request env st "DELETE" session_url .empty none []).decodeWith (fun _ => .ok ())

/-- Transliteration of `get_all_document_sets` (site scope; sends a
`$filter` query parameter). -/
def get_all_document_sets (env : Env) (st : ClientState) (list_id : String) : RunResult Json :=
  if pyTruthy st.site_id = false then
    ⟨.error (.contextError "Site ID not set."), st, []⟩
  else
    let url := st.base_url ++ "/sites/" ++ pyStrOpt st.site_id ++ "/lists/"
        ++ list_id ++ "/items"
    let params := [("$filter", "contentType/name eq \x27Document Set\x27")]
    (_request env st "GET" url .empty none params).decodeWith
      (fun resp => pyGetKey resp.jsonBody "value")

/-- Transliteration of `get_document_set_details`. -/
def get_document_set_details (env : Env) (st : ClientState) (list_id docset_id : String) :
    RunResult Json :=
  if pyTruthy st.site_id = false then
    ⟨.error (.contextError "Site ID not set."), st, []⟩
  else
    let url := st.base_url ++ "/sites/" ++ pyStrOpt st.site_id ++ "/lists/"
        ++ list_id ++ "/items/" ++ docset_id
    (_request env st "GET" url .empty none []).decodeWith (fun resp => .ok resp.jsonBody)

/-- Transliteration of `create_document_set`. -/
def create_document_set (env : Env) (st : ClientState) (list_id title : String) :
    RunResult Json :=
  if pyTruthy st.site_id = false then
    ⟨.error (.contextError "Site ID not set."), st, []⟩
  else
    let url := st.base_url ++ "/sites/" ++ pyStrOpt st.site_id ++ "/lists/"
        ++ list_id ++ "/items"
    let data := Json.obj
      [("fields", .obj
          [("Title", .str title),
           ("ContentTypeId", .str "0x0120D520")])]
    (_request env st "POST" url (.json data) none []).decodeWith (fun resp => .ok resp.jsonBody)

/-- Transliteration of `update_document_set`. -/
def update_document_set (env : Env) (st : ClientState) (list_id docset_id title : String) :
    RunResult Json :=
  if pyTruthy st.site_id = false then
    ⟨.error (.contextError "Site ID not set."), st, []⟩
  else
    let url := st.base_url ++ "/sites/" ++ pyStrOpt st.site_id ++ "/lists/"
        ++ list_id ++ "/items/" ++ docset_id
    let data := Json.obj
      [("fields", .obj
          [("Title", .str title),
           ("ContentTypeId", .str "0x0120D520")])]
    (_request env st "PATCH" url (.json data) none []).decodeWith (fun resp => .ok resp.jsonBody)

/-- Transliteration of `get_documents_in_set` (drive scope). -/
def get_documents_in_set (env : Env) (st : ClientState) (docset_id : String) : RunResult Json :=
  if pyTruthy st.drive_id = false then
    ⟨.error (.contextError "Drive ID not set."), st, []⟩
  else
    let url := st.base_url ++ "/drives/" ++ pyStrOpt st.drive_id ++ "/items/"
        ++ docset_id ++ "/children"
    (_request env st "GET" url .empty none []).decodeWith
      (fun resp => pyGetKey resp.jsonBody "value")

/-- Transliteration of `delete_document_set`. -/
def delete_document_set (env : Env) (st : ClientState) (list_id docset_id : String) :
    RunResult Unit :=
  if pyTruthy st.site_id = false then
    ⟨.error (.contextError "Site ID not set."), st, []⟩
  else
    let url := st.base_url ++ "/sites/" ++ pyStrOpt st.site_id ++ "/lists/"
        ++ list_id ++ "/items/" ++ docset_id
    (_request env st "DELETE" url .empty none []).decodeWith (fun _ => .ok ())

/-- Transliteration of `get_item_permissions`. -/
def get_item_permissions (env : Env) (st : ClientState) (file_id : String) : RunResult Json :=
  if pyTruthy st.drive_id = false then
    ⟨.error (.contextError "Drive ID not set."), st, []⟩
  else
    let url := st.base_url ++ "/drives/" ++ pyStrOpt st.drive_id ++ "/items/"
        ++ file_id ++ "/permissions"
    (_request env st "GET" url .empty none []).decodeWith
      (fun resp => pyGetKey resp.jsonBody "value")

/-- Default role used by `share_with_user` when the caller omits the `role`
argument (Python default parameter `role='edit'`). -/
def share_with_user_default_role : String := "edit"

/-- Transliteration of `share_with_user`: invite one recipient with the role
wrapped in a singleton list and `requireSignIn` fixed to true. -/
def share_with_user (env : Env) (st : ClientState) (file_id email role : String) :
    RunResult Json :=
  if pyTruthy st.drive_id = false then
    ⟨.error (.contextError "Drive ID not set."), st, []⟩
  else
    let url := st.base_url ++ "/drives/" ++ pyStrOpt st.drive_id ++ "/items/"
        ++ file_id ++ "/invite"
    let data := Json.obj
      [("recipients", .arr [.obj [("email", .str email)]]),
       ("roles", .arr [.str role]),
       ("requireSignIn", .bool true)]
    (_request env st "POST" url (.json data) none []).decodeWith (fun resp => .ok resp.jsonBody)

/-- Transliteration of `create_sharing_link` (defaults in Python:
`link_type='view'`, `scope='anonymous'`; here both are explicit). -/
def create_sharing_link (env : Env) (st : ClientState) (file_id link_type scope : String) :
    RunResult Json :=
  if pyTruthy st.drive_id = false then
    ⟨.error (.contextError "Drive ID not set."), st, []⟩
  else
    let url := st.base_url ++ "/drives/" ++ pyStrOpt st.drive_id ++ "/items/"
        ++ file_id ++ "/createLink"
    let data := Json.obj
      [("type", .str link_type),
       ("scope", .str scope)]
    (_request env st "POST" url (.json data) none []).decodeWith (fun resp => .ok resp.jsonBody)

/-- Transliteration of `delete_permission`. -/
def delete_permission (env : Env) (st : ClientState) (file_id permission_id : String) :
    RunResult Unit :=
  if pyTruthy st.drive_id = false then
    ⟨.error (.contextError "Drive ID not set."), st, []⟩
  else
    let url := st.base_url ++ "/drives/" ++ pyStrOpt st.drive_id ++ "/items/"
        ++ file_id ++ "/permissions/" ++ permission_id
    (_request env st "DELETE" url .empty none []).decodeWith (fun _ => .ok ())

/-- Transliteration of `update_permission_role` (Python default
`role='read'`; here explicit). -/
def update_permission_role (env : Env) (st : ClientState) (file_id permission_id role : String) :
    RunResult Json :=
  if pyTruthy st.drive_id = false then
    ⟨.error (.contextError "Drive ID not set."), st, []⟩
  else
    let url := st.base_url ++ "/drives/" ++ pyStrOpt st.drive_id ++ "/items/"
        ++ file_id ++ "/permissions/" ++ permission_id
    let data := Json.obj [("roles", .arr [.str role])]
    (_request env st "PATCH" url (.json data) none []).decodeWith (fun resp => .ok resp.jsonBody)

/-- Transliteration of `get_all_pages`. -/
def get_all_pages (env : Env) (st : ClientState) : RunResult Json :=
  if pyTruthy st.site_id = false then
    ⟨.error (.contextError "Site ID not set."), st, []⟩
  else
    let url := st.base_url ++ "/sites/" ++ pyStrOpt st.site_id ++ "/pages"
    (_request env st "GET" url .empty none []).decodeWith
      (fun resp => pyGetKey resp.jsonBody "value")

/-- Transliteration of `get_page_details`. -/
def get_page_details (env : Env) (st : ClientState) (page_id : String) : RunResult Json :=
  if pyTruthy st.site_id = false then
    ⟨.error (.contextError "Site ID not set."), st, []⟩
  else
    let url := st.base_url ++ "/sites/" ++ pyStrOpt st.site_id ++ "/pages/" ++ page_id
    (_request env st "GET" url .empty none []).decodeWith (fun resp => .ok resp.jsonBody)

/-- Transliteration of `create_page`. -/
def create_page (env : Env) (st : ClientState) (name title : String) : RunResult Json :=
  if pyTruthy st.site_id = false then
    ⟨.error (.contextError "Site ID not set."), st, []⟩
  else
    let url := st.base_url ++ "/sites/" ++ pyStrOpt st.site_id ++ "/pages"
    let data := Json.obj
      [("name", .str name),
       ("title", .str title),
       ("layoutWebpartId", .str "3eb3e627-5144-4667-83d5-7662c6abb714")]
    (_request env st "POST" url (.json data) none []).decodeWith (fun resp => .ok resp.jsonBody)

/-- Transliteration of `update_page` (Python default `description=''`; here
explicit). -/
def update_page (env : Env) (st : ClientState) (page_id title description : String) :
    RunResult Json :=
  if pyTruthy st.site_id = false then
    ⟨.error (.contextError "Site ID not set."), st, []⟩
  else
    let url := st.base_url ++ "/sites/" ++ pyStrOpt st.site_id ++ "/pages/" ++ page_id
    let data := Json.obj
      [("title", .str title),
       ("description", .str description)]
    (_request env st "PATCH" url (.json data) none []).decodeWith (fun resp => .ok resp.jsonBody)

/-- Transliteration of `publish_page`. -/
def publish_page (env : Env) (st : ClientState) (page_id : String) : RunResult Unit :=
  if pyTruthy st.site_id = false then
    ⟨.error (.contextError "Site ID not set."), st, []⟩
  else
    let url := st.base_url ++ "/sites/" ++ pyStrOpt st.site_id ++ "/pages/"
        ++ page_id ++ "/publish"
    (_request env st "POST" url .empty none []).decodeWith (fun _ => .ok ())

/-- Transliteration of `delete_page`. -/
def delete_page (env : Env) (st : ClientState) (page_id : String) : RunResult Unit :=
  if pyTruthy st.site_id = false then
    ⟨.error (.contextError "Site ID not set."), st, []⟩
  else
    let url := st.base_url ++ "/sites/" ++ pyStrOpt st.site_id ++ "/pages/" ++ page_id
    (_request env st "DELETE" url .empty none []).decodeWith (fun _ => .ok ())

/-- Transliteration of `add_web_part_to_page`. -/
def add_web_part_to_page (env : Env) (st : ClientState) (page_id : String)
    (web_part_data : Json) : RunResult Json :=
  if pyTruthy st.site_id = false then
    ⟨.error (.contextError "Site ID not set."), st, []⟩
  else
    let url := st.base_url ++ "/sites/" ++ pyStrOpt st.site_id ++ "/pages/"
        ++ page_id ++ "/webparts"
    let data := Json.obj [("webPartData", web_part_data)]
    (_request env st "POST" url (.json data) none []).decodeWith (fun resp => .ok resp.jsonBody)

/-- Transliteration of `get_lists`. -/
def get_lists (env : Env) (st : ClientState) : RunResult Json :=
  if pyTruthy st.site_id = false then
    ⟨.error (.contextError "Site ID not set."), st, []⟩
  else
    let url := st.base_url ++ "/sites/" ++ pyStrOpt st.site_id ++ "/lists"
    (_request env st "GET" url .empty none []).decodeWith
      (fun resp => pyGetKey resp.jsonBody "value")

/-- Transliteration of `create_list_item`. -/
def create_list_item (env : Env) (st : ClientState) (list_id : String) (fields : Json) :
    RunResult Json :=
  if pyTruthy st.site_id = false then
    ⟨.error (.contextError "Site ID not set."), st, []⟩
  else
    let url := st.base_url ++ "/sites/" ++ pyStrOpt st.site_id ++ "/lists/"
        ++ list_id ++ "/items"
    let data := Json.obj [("fields", fields)]
    (_request env st "POST" url (.json data) none []).decodeWith (fun resp => .ok resp.jsonBody)

/-- Transliteration of `get_list_item`. -/
def get_list_item (env : Env) (st : ClientState) (list_id item_id : String) : RunResult Json :=
  if pyTruthy st.site_id = false then
    ⟨.error (.contextError "Site ID not set."), st, []⟩
  else
    let url := st.base_url ++ "/sites/" ++ pyStrOpt st.site_id ++ "/lists/"
        ++ list_id ++ "/items/" ++ item_id
    (_request env st "GET" url .empty none []).decodeWith (fun resp => .ok resp.jsonBody)

/-- Transliteration of `update_list_item`. -/
def update_list_item (env : Env) (st : ClientState) (list_id item_id : String)
    (fields : Json) : RunResult Json :=
  if pyTruthy st.site_id = false then
    ⟨.error (.contextError "Site ID not set."), st, []⟩
  else
    let url := st.base_url ++ "/sites/" ++ pyStrOpt st.site_id ++ "/lists/"
        ++ list_id ++ "/items/" ++ item_id
    let data := Json.obj [("fields", fields)]
    (_request env st "PATCH" url (.json data) none []).decodeWith (fun resp => .ok resp.jsonBody)

/-- Transliteration of `delete_list_item`. -/
def delete_list_item (env : Env) (st : ClientState) (list_id item_id : String) :
    RunResult Unit :=
  if pyTruthy st.site_id = false then
    ⟨.error (.contextError "Site ID not set."), st, []⟩
  else
    let url := st.base_url ++ "/sites/" ++ pyStrOpt st.site_id ++ "/lists/"
        ++ list_id ++ "/items/" ++ item_id
    (_request env st "DELETE" url .empty none []).decodeWith (fun _ => .ok ())

/-- Enumeration of every resource operation of the client (every public
method except `get_access_token`, `get_site_id` and `get_drive_id`),
together with its arguments, so that properties can quantify uniformly over
operations. -/
inductive ResourceOp where
  | createFolder (folder_name parent_id : String)
  | deleteFile (file_id : String)
  | renameFile (file_id new_name : String)
  | copyFile (file_id new_name destination_id : String)
  | moveFile (file_id destination_folder_id : String)
  | getFileMetadata (file_id : String)
  | getFolderContents (folder_id : String)
  | searchFiles (search_term : String)
  | downloadFile (file_id output_path : String)
  | uploadFile (file_path : String) (file_bytes : List Nat) (folder_id : String)
  | createUploadSession (filename folder_id : String)
  | uploadChunk (session_url : String) (chunk_data : List Nat) (start end_ total_size : Int)
  | getUploadSessionStatus (session_url : String)
  | cancelUploadSession (session_url : String)
  | getAllDocumentSets (list_id : String)
  | getDocumentSetDetails (list_id docset_id : String)
  | createDocumentSet (list_id title : String)
  | updateDocumentSet (list_id docset_id title : String)
  | getDocumentsInSet (docset_id : String)
  | deleteDocumentSet (list_id docset_id : String)
  | getItemPermissions (file_id : String)
  | shareWithUser (file_id email role : String)
  | createSharingLink (file_id link_type scope : String)
  | deletePermission (file_id permission_id : String)
  | updatePermissionRole (file_id permission_id role : String)
  | getAllPages
  | getPageDetails (page_id : String)
  | createPage (name title : String)
  | updatePage (page_id title description : String)
  | publishPage (page_id : String)
  | deletePage (page_id : String)
  | addWebPartToPage (page_id : String) (web_part_data : Json)
  | getLists
  | createListItem (list_id : String) (fields : Json)
  | getListItem (list_id item_id : String)
  | updateListItem (list_id item_id : String) (fields : Json)
  | deleteListItem (list_id item_id : String)

/-- Run a resource operation, forgetting its returned value (the raised
error, final state and effect trace are kept). -/
def runOp (o : ResourceOp) (env : Env) (st : ClientState) : RunResult Unit :=
  match o with
  | .createFolder a b => (create_folder env st a b).discard
  | .deleteFile a => (delete_file env st a).discard
  | .renameFile a b => (rename_file env st a b).discard
  | .copyFile a b c => (copy_file env st a b c).discard
  | .moveFile a b => (move_file env st a b).discard
  | .getFileMetadata a => (get_file_metadata env st a).discard
  | .getFolderContents a => (get_folder_contents env st a).discard
  | .searchFiles a => (search_files env st a).discard
  | .downloadFile a b => (download_file env st a b).discard
  | .uploadFile a bs c => (upload_file env st a bs c).discard
  | .createUploadSession a b => (create_upload_session env st a b).discard
  | .uploadChunk u cd s e t => (upload_chunk env st u cd s e t).discard
  | .getUploadSessionStatus u => (get_upload_session_status env st u).discard
  | .cancelUploadSession u => (cancel_upload_session env st u).discard
  | .getAllDocumentSets a => (get_all_document_sets env st a).discard
  | .getDocumentSetDetails a b => (get_document_set_details env st a b).discard
  | .createDocumentSet a b => (create_document_set env st a b).discard
  | .updateDocumentSet a b c => (update_document_set env st a b c).discard
  | .getDocumentsInSet a => (get_documents_in_set env st a).discard
  | .deleteDocumentSet a b => (delete_document_set env st a b).discard
  | .getItemPermissions a => (get_item_permissions env st a).discard
  | .shareWithUser a b c => (share_with_user env st a b c).discard
  | .createSharingLink a b c => (create_sharing_link env st a b c).discard
  | .deletePermission a b => (delete_permission env st a b).discard
  | .updatePermissionRole a b c => (update_permission_role env st a b c).discard
  | .getAllPages => (get_all_pages env st).discard
  | .getPageDetails a => (get_page_details env st a).discard
  | .createPage a b => (create_page env st a b).discard
  | .updatePage a b c => (update_page env st a b c).discard
  | .publishPage a => (publish_page env st a).discard
  | .deletePage a => (delete_page env st a).discard
  | .addWebPartToPage a j => (add_web_part_to_page env st a j).discard
  | .getLists => (get_lists env st).discard
  | .createListItem a j => (create_list_item env st a j).discard
  | .getListItem a b => (get_list_item env st a b).discard
  | .updateListItem a b j => (update_list_item env st a b j).discard
  | .deleteListItem a b => (delete_list_item env st a b).discard

/-- The operations whose first step is the `if not self.drive_id` check
(drive scope). -/
def requiresDrive : ResourceOp → Bool
  | .createFolder _ _ | .deleteFile _ | .renameFile _ _ | .copyFile _ _ _
  | .moveFile _ _ | .getFileMetadata _ | .getFolderContents _ | .searchFiles _
  | .downloadFile _ _ | .uploadFile _ _ _ | .createUploadSession _ _
  | .getDocumentsInSet _ | .getItemPermissions _ | .shareWithUser _ _ _
  | .createSharingLink _ _ _ | .deletePermission _ _ | .updatePermissionRole _ _ _ => true
  | _ => false

/-- The operations whose first step is the `if not self.site_id` check
(site scope). -/
def requiresSite : ResourceOp → Bool
  | .getAllDocumentSets _ | .getDocumentSetDetails _ _ | .createDocumentSet _ _
  | .updateDocumentSet _ _ _ | .deleteDocumentSet _ _ | .getAllPages
  | .getPageDetails _ | .createPage _ _ | .updatePage _ _ _ | .publishPage _
  | .deletePage _ | .addWebPartToPage _ _ | .getLists | .createListItem _ _
  | .getListItem _ _ | .updateListItem _ _ _ | .deleteListItem _ _ => true
  | _ => false

/-- An operation's local precondition on the cached context, as the code
checks it. -/
def opGuard (o : ResourceOp) (st : ClientState) : Bool :=
  if requiresDrive o then pyTruthy st.drive_id
  else if requiresSite o then pyTruthy st.site_id
  else true

/-- Whether an effect is a call to the token endpoint. -/
def Effect.isToken : Effect → Bool
  | .tokenCall _ => true
  | .resourceCall _ => false

/-- Number of token-endpoint calls in a trace. -/
def countTokenCalls (tr : List Effect) : Nat :=
  tr.countP Effect.isToken

/-- Frame relation between the state before and after an operation: the
credentials, base URL, site id and drive id are untouched, and the access
token is untouched whenever a (truthy) token was already cached. -/
def Frame (st st1 : ClientState) : Prop :=
  st1.creds = st.creds ∧ st1.base_url = st.base_url ∧ st1.site_id = st.site_id ∧
    st1.drive_id = st.drive_id ∧
    (pyTruthy st.access_token = true → st1.access_token = st.access_token)

theorem frame_refl (st : ClientState) : Frame st st :=
  ⟨rfl, rfl, rfl, rfl, fun _ => rfl⟩

theorem discard_st (r : RunResult α) : (r.discard).st = r.st := rfl

theorem discard_tr (r : RunResult α) : (r.discard).tr = r.tr := rfl

theorem decode_st (r : RunResult HttpResponse) (f : HttpResponse → Except PyErr α) :
    (r.decodeWith f).st = r.st := by
  unfold RunResult.decodeWith; split <;> rfl

theorem decode_tr (r : RunResult HttpResponse) (f : HttpResponse → Except PyErr α) :
    (r.decodeWith f).tr = r.tr := by
  unfold RunResult.decodeWith; split <;> rfl

theorem sendRequest_st (env : Env) (st : ClientState) (m u : String) (b : Body)
    (h : Option (List (String × String))) (p : List (String × String)) (tr : List Effect) :
    (sendRequest env st m u b h p tr).st = st := by
  unfold sendRequest; dsimp only; split <;> rfl

theorem sendRequest_tr (env : Env) (st : ClientState) (m u : String) (b : Body)
    (h : Option (List (String × String))) (p : List (String × String)) (tr : List Effect) :
    ∃ req, (sendRequest env st m u b h p tr).tr = tr ++ [.resourceCall req] := by
  unfold sendRequest; dsimp only; split <;> exact ⟨_, rfl⟩

theorem get_access_token_state (env : Env) (st : ClientState) :
    (get_access_token env st).st = st ∨
      ∃ t, (get_access_token env st).st = { st with access_token := some t } := by
  unfold get_access_token
  dsimp only
  split
  · exact Or.inl rfl
  · split
    · exact Or.inr ⟨_, rfl⟩
    · exact Or.inl rfl
    · exact Or.inl rfl

theorem get_access_token_tr (env : Env) (st : ClientState) :
    ∃ req, (get_access_token env st).tr = [.tokenCall req] := by
  unfold get_access_token
  dsimp only
  split
  · exact ⟨_, rfl⟩
  · split <;> exact ⟨_, rfl⟩

theorem pyGetKey_no_context {j : Json} {k : String} {e : PyErr}
    (h : pyGetKey j k = .error e) (m : String) : e ≠ PyErr.contextError m := by
  unfold pyGetKey at h
  split at h
  · split at h
    · exact absurd h (by simp)
    · intro hc; rw [hc] at h; exact absurd h (by simp)
  · intro hc; rw [hc] at h; exact absurd h (by simp)

theorem get_access_token_no_context (env : Env) (st : ClientState) (m : String) :
    (get_access_token env st).res ≠ .error (.contextError m) := by
  unfold get_access_token
  dsimp only
  split
  · simp
  · split
    · simp
    · simp
    · rename_i e heq
      simp only [ne_eq, Except.error.injEq]
      intro hc
      exact pyGetKey_no_context heq m (by rw [hc])

theorem _request_truthy {st : ClientState} (htok : pyTruthy st.access_token = true)
    (env : Env) (m u : String) (b : Body) (h : Option (List (String × String)))
    (p : List (String × String)) :
    _request env st m u b h p = sendRequest env st m u b h p [] := by
  unfold _request; rw [htok]; rfl

theorem _request_frame (env : Env) (st : ClientState) (m u : String) (b : Body)
    (h : Option (List (String × String))) (p : List (String × String)) :
    Frame st (_request env st m u b h p).st := by
  unfold _request
  split
  · rw [sendRequest_st]; exact frame_refl st
  · rename_i hfalse
    split
    · rename_i v st1 tr heq
      rw [sendRequest_st]
      rcases get_access_token_state env st with hst | ⟨t, hst⟩ <;> rw [heq] at hst
      · exact hst ▸ frame_refl st
      · rw [show st1 = { st with access_token := some t } from hst]
        exact ⟨rfl, rfl, rfl, rfl, fun hc => absurd hc hfalse⟩
    · rename_i e st1 tr heq
      rcases get_access_token_state env st with hst | ⟨t, hst⟩ <;> rw [heq] at hst
      · exact hst ▸ frame_refl st
      · rw [show (RunResult.mk (Except.error e) st1 tr).st = { st with access_token := some t } from hst]
        exact ⟨rfl, rfl, rfl, rfl, fun hc => absurd hc hfalse⟩

theorem _request_cached {st : ClientState} (htok : pyTruthy st.access_token = true)
    (env : Env) (m u : String) (b : Body) (h : Option (List (String × String)))
    (p : List (String × String)) :
    (_request env st m u b h p).st = st ∧
      countTokenCalls (_request env st m u b h p).tr = 0 := by
  rw [_request_truthy htok]
  refine ⟨sendRequest_st env st m u b h p [], ?_⟩
  obtain ⟨req, hreq⟩ := sendRequest_tr env st m u b h p []
  rw [hreq]
  simp [countTokenCalls, Effect.isToken]

theorem _request_no_context (env : Env) (st : ClientState) (m u : String) (b : Body)
    (h : Option (List (String × String))) (p : List (String × String)) (msg : String) :
    (_request env st m u b h p).res ≠ .error (.contextError msg) := by
  have hsend : ∀ st' tr, (sendRequest env st' m u b h p tr).res ≠ .error (.contextError msg) := by
    intro st' tr
    unfold sendRequest; dsimp only; split <;> simp
  unfold _request
  split
  · exact hsend st []
  · split
    · rename_i v st1 tr heq
      exact hsend st1 tr
    · rename_i e st1 tr heq
      have := get_access_token_no_context env st msg
      rw [heq] at this
      simpa using this

theorem sendRequest_tr_eq (env : Env) (st : ClientState) (m u : String) (b : Body)
    (h : Option (List (String × String))) (p : List (String × String)) (tr : List Effect) :
    (sendRequest env st m u b h p tr).tr
      = tr ++ [Effect.resourceCall ⟨m, u,
          (match h with
           | some hs => hs
           | none => _get_headers st "application/json"), b, p⟩] := by
  unfold sendRequest; dsimp only; split <;> rfl

theorem _request_cases (env : Env) (st : ClientState) (m u : String) (b : Body)
    (h : Option (List (String × String))) (p : List (String × String)) :
    (pyTruthy st.access_token = true ∧
       _request env st m u b h p = sendRequest env st m u b h p []) ∨
      (pyTruthy st.access_token = false ∧
        ((∃ v st1 tr, get_access_token env st = ⟨.ok v, st1, tr⟩ ∧
            _request env st m u b h p = sendRequest env st1 m u b h p tr) ∨
          (∃ e st1 tr, get_access_token env st = ⟨.error e, st1, tr⟩ ∧
            _request env st m u b h p = ⟨.error e, st1, tr⟩))) := by
  by_cases htok : pyTruthy st.access_token = true
  · exact Or.inl ⟨htok, by unfold _request; rw [if_pos htok]⟩
  · refine Or.inr ⟨by simpa using htok, ?_⟩
    rcases hga : get_access_token env st with ⟨res, st1, tr⟩
    cases res with
    | ok v =>
        exact Or.inl ⟨v, st1, tr, rfl, by unfold _request; rw [if_neg htok, hga]⟩
    | error e =>
        exact Or.inr ⟨e, st1, tr, rfl, by unfold _request; rw [if_neg htok, hga]⟩

theorem _request_resource_some {env : Env} {st : ClientState} {m u : String} {b : Body}
    {hs p : List (String × String)} {req : HttpRequest}
    (hmem : Effect.resourceCall req ∈ (_request env st m u b (some hs) p).tr) :
    req = ⟨m, u, hs, b, p⟩ := by
  rcases _request_cases env st m u b (some hs) p with ⟨htok, heq⟩ | ⟨htok, hca⟩
  · rw [heq, sendRequest_tr_eq] at hmem
    exact Effect.resourceCall.inj (by simpa using hmem)
  · rcases hca with ⟨v, st1, tr, hga, heq⟩ | ⟨e, st1, tr, hga, heq⟩
    · obtain ⟨r, hr⟩ := get_access_token_tr env st
      rw [hga] at hr
      dsimp only at hr
      rw [heq, sendRequest_tr_eq, hr] at hmem
      exact Effect.resourceCall.inj (by simpa using hmem)
    · obtain ⟨r, hr⟩ := get_access_token_tr env st
      rw [hga] at hr
      rw [heq] at hmem
      dsimp only at hmem hr
      rw [hr] at hmem
      simp at hmem

theorem _request_resource_none {env : Env} {st : ClientState} {m u : String} {b : Body}
    {p : List (String × String)} {req : HttpRequest}
    (hmem : Effect.resourceCall req ∈ (_request env st m u b none p).tr) :
    req = ⟨m, u, _get_headers (_request env st m u b none p).st "application/json", b, p⟩ := by
  rcases _request_cases env st m u b none p with ⟨htok, heq⟩ | ⟨htok, hca⟩
  · rw [heq, sendRequest_tr_eq] at hmem
    rw [heq, sendRequest_st]
    exact Effect.resourceCall.inj (by simpa using hmem)
  · rcases hca with ⟨v, st1, tr, hga, heq⟩ | ⟨e, st1, tr, hga, heq⟩
    · obtain ⟨r, hr⟩ := get_access_token_tr env st
      rw [hga] at hr
      dsimp only at hr
      rw [heq, sendRequest_tr_eq, hr] at hmem
      rw [heq, sendRequest_st]
      exact Effect.resourceCall.inj (by simpa using hmem)
    · obtain ⟨r, hr⟩ := get_access_token_tr env st
      rw [hga] at hr
      rw [heq] at hmem
      dsimp only at hmem hr
      rw [hr] at hmem
      simp at hmem

/-- C8 (amended): every resource operation leaves the cached site identifier,
drive identifier, credentials and base URL unchanged, on success and on error
alike, and leaves the access token unchanged whenever a token was already
cached; the only state change a resource operation can make is caching the
token fetched on demand when none was cached. -/
theorem resource_ops_frame (o : ResourceOp) (env : Env) (st : ClientState) :
    Frame st (runOp o env st).st := by
  cases o <;>
    simp only [runOp, discard_st, create_folder, delete_file, rename_file, copy_file,
      move_file, get_file_metadata, get_folder_contents, search_files, download_file,
      upload_file, create_upload_session, upload_chunk, get_upload_session_status,
      cancel_upload_session, get_all_document_sets, get_document_set_details,
      create_document_set, update_document_set, get_documents_in_set, delete_document_set,
      get_item_permissions, share_with_user, create_sharing_link, delete_permission,
      update_permission_role, get_all_pages, get_page_details, create_page, update_page,
      publish_page, delete_page, add_web_part_to_page, get_lists, create_list_item,
      get_list_item, update_list_item, delete_list_item] <;>
    (try split) <;>
    (try rw [decode_st]) <;>
    first
      | exact frame_refl st
      | apply _request_frame

theorem runOp_cached (o : ResourceOp) (env : Env) (st : ClientState)
    (htok : pyTruthy st.access_token = true) :
    (runOp o env st).st = st ∧ countTokenCalls (runOp o env st).tr = 0 := by
  cases o <;>
    simp only [runOp, discard_st, discard_tr, create_folder, delete_file, rename_file,
      copy_file, move_file, get_file_metadata, get_folder_contents, search_files,
      download_file, upload_file, create_upload_session, upload_chunk,
      get_upload_session_status, cancel_upload_session, get_all_document_sets,
      get_document_set_details, create_document_set, update_document_set,
      get_documents_in_set, delete_document_set, get_item_permissions, share_with_user,
      create_sharing_link, delete_permission, update_permission_role, get_all_pages,
      get_page_details, create_page, update_page, publish_page, delete_page,
      add_web_part_to_page, get_lists, create_list_item, get_list_item, update_list_item,
      delete_list_item] <;>
    (try split) <;>
    (try rw [decode_st, decode_tr]) <;>
    first
      | exact ⟨rfl, rfl⟩
      | exact _request_cached htok env _ _ _ _ _

theorem decode_res_error {r : RunResult HttpResponse} {f : HttpResponse → Except PyErr α}
    {e : PyErr} (h : r.res = .error e) : (r.decodeWith f).res = .error e := by
  unfold RunResult.decodeWith
  rw [h]

theorem discard_decode_res_error {r : RunResult HttpResponse}
    {f : HttpResponse → Except PyErr α} {e : PyErr} (h : r.res = .error e) :
    ((r.decodeWith f).discard).res = .error e := by
  have h2 := decode_res_error (f := f) h
  simp [RunResult.discard, h2, Except.map]

theorem _request_fail {st : ClientState} (htok : pyTruthy st.access_token = true)
    (env : Env) (m u : String) (b : Body) (h : Option (List (String × String)))
    (p : List (String × String))
    (hfail : ∀ req, raisesForStatus (env req).status = true) :
    ∃ req, (_request env st m u b h p).tr = [.resourceCall req] ∧
      (_request env st m u b h p).res
        = .error (.httpError (env req).status (env req).jsonBody) := by
  rw [_request_truthy htok]
  unfold sendRequest
  dsimp only
  rw [if_pos (hfail _)]
  exact ⟨_, by simp, rfl⟩

theorem runStep_fail {st : ClientState} (htok : pyTruthy st.access_token = true)
    (env : Env) (m u : String) (b : Body) (h : Option (List (String × String)))
    (p : List (String × String)) (f : HttpResponse → Except PyErr α)
    (hfail : ∀ req, raisesForStatus (env req).status = true) :
    ∃ req, (((_request env st m u b h p).decodeWith f).discard).tr = [.resourceCall req] ∧
      (((_request env st m u b h p).decodeWith f).discard).res
        = .error (.httpError (env req).status (env req).jsonBody) := by
  obtain ⟨req, htr, hres⟩ := _request_fail htok env m u b h p hfail
  exact ⟨req, by rw [discard_tr, decode_tr, htr], discard_decode_res_error hres⟩

/-- C4 (amended): with a cached token and the context precondition satisfied,
any response whose status triggers `raise_for_status` (status in [400, 600))
makes the operation raise a `RemoteError` carrying that status and body, and
the operation issues exactly one request — it is never retried. -/
theorem resource_ops_remote_error (o : ResourceOp) (env : Env) (st : ClientState)
    (htok : pyTruthy st.access_token = true) (hpre : opGuard o st = true)
    (hfail : ∀ req, raisesForStatus (env req).status = true) :
    ∃ req, (runOp o env st).tr = [.resourceCall req] ∧
      (runOp o env st).res = .error (.httpError (env req).status (env req).jsonBody) := by
  cases o <;> simp [opGuard, requiresDrive, requiresSite] at hpre <;>
    simp only [runOp, create_folder, delete_file, rename_file, copy_file, move_file,
      get_file_metadata, get_folder_contents, search_files, download_file, upload_file,
      create_upload_session, upload_chunk, get_upload_session_status, cancel_upload_session,
      get_all_document_sets, get_document_set_details, create_document_set,
      update_document_set, get_documents_in_set, delete_document_set, get_item_permissions,
      share_with_user, create_sharing_link, delete_permission, update_permission_role,
      get_all_pages, get_page_details, create_page, update_page, publish_page, delete_page,
      add_web_part_to_page, get_lists, create_list_item, get_list_item, update_list_item,
      delete_list_item] <;>
    (try rw [if_neg (by simp [hpre])]) <;>
    exact runStep_fail htok env _ _ _ _ _ _ hfail

set_option maxRecDepth 4000 in
/-- C1: every operation requiring drive scope (create_folder, delete_file,
rename_file, copy_file, move_file, get_file_metadata, get_folder_contents,
search_files, download_file, upload_file, create_upload_session,
get_documents_in_set, get_item_permissions, share_with_user,
create_sharing_link, delete_permission, update_permission_role), invoked
while the cached drive identifier is unset, fails with the ValueError whose
message starts with "Drive ID not set" (the ContextError) and issues zero
network calls. -/
theorem drive_scope_context_error (o : ResourceOp) (env : Env) (st : ClientState)
    (ho : requiresDrive o = true) (hd : pyTruthy st.drive_id = false) :
    (∃ m, (runOp o env st).res = .error (.contextError m) ∧ m.take 16 = "Drive ID not set") ∧
      (runOp o env st).tr = [] := by
  cases o <;> simp only [requiresDrive, Bool.false_eq_true] at ho <;>
    simp only [runOp, create_folder, delete_file, rename_file, copy_file, move_file,
      get_file_metadata, get_folder_contents, search_files, download_file, upload_file,
      create_upload_session, get_documents_in_set, get_item_permissions, share_with_user,
      create_sharing_link, delete_permission, update_permission_role] <;>
    rw [if_pos hd] <;>
    exact ⟨⟨_, rfl, by decide⟩, rfl⟩

/-- C3: when a token is already cached, performing any two consecutive
resource operations issues zero calls to the token endpoint. -/
theorem token_endpoint_not_reinvoked (o1 o2 : ResourceOp) (env1 env2 : Env)
    (st : ClientState) (htok : pyTruthy st.access_token = true) :
    countTokenCalls ((runOp o1 env1 st).tr
      ++ (runOp o2 env2 (runOp o1 env1 st).st).tr) = 0 := by
  obtain ⟨hst1, hc1⟩ := runOp_cached o1 env1 st htok
  obtain ⟨hst2, hc2⟩ := runOp_cached o2 env2 st htok
  rw [hst1]
  unfold countTokenCalls at hc1 hc2 ⊢
  rw [List.countP_append, hc1, hc2]

theorem decode_ok_no_context {α : Type} {r : RunResult HttpResponse} {g : HttpResponse → α}
    (hr : ∀ m, r.res ≠ .error (.contextError m)) (m : String) :
    (r.decodeWith (fun resp => .ok (g resp))).res ≠ .error (.contextError m) := by
  intro hc
  unfold RunResult.decodeWith at hc
  split at hc
  · simp at hc
  · rename_i e heq
    dsimp only at hc
    injection hc with he
    rw [he] at heq
    exact hr m heq

/-- C9: the three upload-session operations perform no resolved-context
precondition check: whatever the client state (site and drive identifiers
may both be unset), they never raise a ContextError, and with a cached token
they proceed directly to issuing the single HTTP request against the session
URL. -/
theorem session_ops_skip_context (env : Env) (st : ClientState) (sess : String)
    (chunk : List Nat) (s e t : Int) :
    ((∀ m, (upload_chunk env st sess chunk s e t).res ≠ .error (.contextError m)) ∧
      (∀ m, (get_upload_session_status env st sess).res ≠ .error (.contextError m)) ∧
      (∀ m, (cancel_upload_session env st sess).res ≠ .error (.contextError m))) ∧
    (pyTruthy st.access_token = true →
      (upload_chunk env st sess chunk s e t).tr
          = [.resourceCall ⟨"PUT", sess,
              [("Authorization", "Bearer " ++ pyStrOpt st.access_token),
               ("Content-Length", toString chunk.length),
               ("Content-Range", "bytes " ++ toString s ++ "-" ++ toString e
                  ++ "/" ++ toString t)],
              .raw chunk, []⟩] ∧
        (get_upload_session_status env st sess).tr
          = [.resourceCall ⟨"GET", sess, _get_headers st "application/json", .empty, []⟩] ∧
        (cancel_upload_session env st sess).tr
          = [.resourceCall ⟨"DELETE", sess, _get_headers st "application/json", .empty, []⟩]) := by
  constructor
  · refine ⟨fun m => ?_, fun m => ?_, fun m => ?_⟩
    · simp only [upload_chunk]
      exact decode_ok_no_context (fun m2 => _request_no_context env st _ _ _ _ _ m2) m
    · simp only [get_upload_session_status]
      exact decode_ok_no_context (fun m2 => _request_no_context env st _ _ _ _ _ m2) m
    · simp only [cancel_upload_session]
      exact decode_ok_no_context (fun m2 => _request_no_context env st _ _ _ _ _ m2) m
  · intro htok
    refine ⟨?_, ?_, ?_⟩ <;>
      · simp only [upload_chunk, get_upload_session_status, cancel_upload_session, decode_tr]
        rw [_request_truthy htok, sendRequest_tr_eq]
        rfl

/-- C5: with drive and token cached, `rename_file(id, name)` sends exactly
one PATCH request to `{base}/drives/{drive}/items/{id}` with JSON body
containing only the field `name` set to the supplied name; given a successful
response (one that does not trigger `raise_for_status`) whose decoded body
carries the requested name, it returns that decoded body unmodified, so the
returned object's `name` field equals the supplied name. -/
theorem rename_file_patch (env : Env) (st : ClientState) (file_id new_name : String)
    (resp : HttpResponse)
    (hd : pyTruthy st.drive_id = true) (htok : pyTruthy st.access_token = true)
    (henv : env ⟨"PATCH",
        st.base_url ++ "/drives/" ++ pyStrOpt st.drive_id ++ "/items/" ++ file_id,
        _get_headers st "application/json",
        .json (.obj [("name", .str new_name)]), []⟩ = resp)
    (hok : raisesForStatus resp.status = false)
    (hname : pyGetKey resp.jsonBody "name" = .ok (.str new_name)) :
    rename_file env st file_id new_name
        = ⟨.ok resp.jsonBody, st,
            [.resourceCall ⟨"PATCH",
              st.base_url ++ "/drives/" ++ pyStrOpt st.drive_id ++ "/items/" ++ file_id,
              _get_headers st "application/json",
              .json (.obj [("name", .str new_name)]), []⟩]⟩ ∧
      pyGetKey resp.jsonBody "name" = .ok (.str new_name) := by
  refine ⟨?_, hname⟩
  simp only [rename_file]
  rw [if_neg (by simp [hd])]
  rw [_request_truthy htok]
  unfold sendRequest
  dsimp only
  rw [henv, if_neg (by simp [hok])]
  rfl

/-- C6: `upload_chunk` sends its PUT with a `Content-Range` header equal to
exactly `bytes {start}-{end}/{total_size}` with the offsets interpolated
verbatim as supplied by the caller — never computed, clamped or adjusted —
and with a cached token the full request (method PUT, session URL, the three
caller-built headers, raw chunk body) is the only effect issued. -/
theorem content_range_exact (env : Env) (st : ClientState) (sess : String)
    (chunk : List Nat) (s e t : Int) :
    (∀ req, Effect.resourceCall req ∈ (upload_chunk env st sess chunk s e t).tr →
        req.method = "PUT" ∧
          List.lookup "Content-Range" req.headers
            = some ("bytes " ++ toString s ++ "-" ++ toString e ++ "/" ++ toString t)) ∧
    (pyTruthy st.access_token = true →
      (upload_chunk env st sess chunk s e t).tr
        = [.resourceCall ⟨"PUT", sess,
            [("Authorization", "Bearer " ++ pyStrOpt st.access_token),
             ("Content-Length", toString chunk.length),
             ("Content-Range", "bytes " ++ toString s ++ "-" ++ toString e
                ++ "/" ++ toString t)],
            .raw chunk, []⟩]) := by
  constructor
  · intro req hmem
    simp only [upload_chunk, decode_tr] at hmem
    rw [_request_resource_some hmem]
    refine ⟨rfl, ?_⟩
    simp [List.lookup]
  · intro htok
    simp only [upload_chunk, decode_tr]
    rw [_request_truthy htok, sendRequest_tr_eq]
    rfl

/-- C10: `share_with_user` always sends a POST to
`{base}/drives/{drive}/items/{id}/invite` whose body is exactly
`recipients = [[email]]`, `roles = [role]` (a singleton list), and
`requireSignIn = true` (sign-in can never be waived); the Python default for
the omitted role argument is `'edit'`. -/
theorem share_with_user_invite_body (env : Env) (st : ClientState)
    (file_id email role : String) (hd : pyTruthy st.drive_id = true) :
    (∀ req, Effect.resourceCall req ∈ (share_with_user env st file_id email role).tr →
        req.method = "POST" ∧
          req.url = st.base_url ++ "/drives/" ++ pyStrOpt st.drive_id ++ "/items/"
            ++ file_id ++ "/invite" ∧
          req.body = .json (.obj
            [("recipients", .arr [.obj [("email", .str email)]]),
             ("roles", .arr [.str role]),
             ("requireSignIn", .bool true)])) ∧
    (pyTruthy st.access_token = true →
      (share_with_user env st file_id email role).tr
        = [.resourceCall ⟨"POST",
            st.base_url ++ "/drives/" ++ pyStrOpt st.drive_id ++ "/items/"
              ++ file_id ++ "/invite",
            _get_headers st "application/json",
            .json (.obj
              [("recipients", .arr [.obj [("email", .str email)]]),
               ("roles", .arr [.str role]),
               ("requireSignIn", .bool true)]), []⟩]) ∧
    share_with_user_default_role = "edit" := by
  refine ⟨?_, ?_, rfl⟩
  · intro req hmem
    simp only [share_with_user] at hmem
    rw [if_neg (by simp [hd]), decode_tr] at hmem
    rw [_request_resource_none hmem]
    exact ⟨rfl, rfl, rfl⟩
  · intro htok
    simp only [share_with_user]
    rw [if_neg (by simp [hd]), decode_tr, _request_truthy htok, sendRequest_tr_eq]
    rfl

/-- C7: with site and token cached, `get_drive_id` issues one GET of the
site's drives; when the returned drives collection is non-empty it caches and
returns the identifier of the first drive, and when the collection is empty
it raises the index-out-of-range fault (`IndexError` from `drives[0]`), not a
ContextError or any domain error. -/
theorem get_drive_id_first_drive (env : Env) (st : ClientState)
    (hsite : pyTruthy st.site_id = true) (htok : pyTruthy st.access_token = true)
    (resp : HttpResponse)
    (henv : env ⟨"GET", st.base_url ++ "/sites/" ++ pyStrOpt st.site_id ++ "/drives",
        _get_headers st "application/json", .empty, []⟩ = resp)
    (hok : raisesForStatus resp.status = false) :
    (∀ d rest did, pyGetKey resp.jsonBody "value" = .ok (.arr (d :: rest)) →
        pyGetKey d "id" = .ok (.str did) →
        get_drive_id env st
          = ⟨.ok did, { st with drive_id := some did },
              [.resourceCall ⟨"GET",
                st.base_url ++ "/sites/" ++ pyStrOpt st.site_id ++ "/drives",
                _get_headers st "application/json", .empty, []⟩]⟩) ∧
    (pyGetKey resp.jsonBody "value" = .ok (.arr []) →
        (get_drive_id env st).res = .error .indexError) := by
  constructor
  · intro d rest did hval hid
    simp only [get_drive_id]
    rw [if_neg (by simp [hsite])]
    rw [_request_truthy htok]
    unfold sendRequest
    dsimp only
    rw [henv, if_neg (by simp [hok])]
    dsimp only
    rw [hval]
    dsimp only
    simp only [pyIndex, List.get?]
    rw [hid]
    rfl
  · intro hval
    simp only [get_drive_id]
    rw [if_neg (by simp [hsite])]
    rw [_request_truthy htok]
    unfold sendRequest
    dsimp only
    rw [henv, if_neg (by simp [hok])]
    dsimp only
    rw [hval]
    dsimp only
    simp [pyIndex, List.get?]

/-- C2 (amended): when no token is cached, it is fetched on demand before the
resource request is issued.  For every request that does not supply its own
headers, the transport attaches an authorization header interpolated from the
token cached after the fetch, plus the JSON content type.  `upload_file` and
`upload_chunk`, however, supply their own headers, built from the token
cached at method entry (before any on-demand fetch — literally `Bearer None`
on a fresh client) and carrying no content type. -/
theorem bearer_header_attachment :
    (∀ (env : Env) (st : ClientState) (m u : String) (b : Body)
        (p : List (String × String)) (req : HttpRequest),
      Effect.resourceCall req ∈ (_request env st m u b none p).tr →
        req.headers = [("Authorization",
            "Bearer " ++ pyStrOpt (_request env st m u b none p).st.access_token),
          ("Content-Type", "application/json")]) ∧
    (∀ (env : Env) (st : ClientState) (m u : String) (b : Body)
        (h : Option (List (String × String))) (p : List (String × String)),
      pyTruthy st.access_token = false →
        ∃ reqT rest, (_request env st m u b h p).tr = Effect.tokenCall reqT :: rest) ∧
    (∀ (env : Env) (st : ClientState) (sess : String) (chunk : List Nat) (s e t : Int)
        (req : HttpRequest),
      Effect.resourceCall req ∈ (upload_chunk env st sess chunk s e t).tr →
        req.headers = [("Authorization", "Bearer " ++ pyStrOpt st.access_token),
          ("Content-Length", toString chunk.length),
          ("Content-Range", "bytes " ++ toString s ++ "-" ++ toString e
            ++ "/" ++ toString t)]) ∧
    (∀ (env : Env) (st : ClientState) (file_path : String) (file_bytes : List Nat)
        (folder_id : String) (req : HttpRequest),
      Effect.resourceCall req ∈ (upload_file env st file_path file_bytes folder_id).tr →
        req.headers = [("Authorization", "Bearer " ++ pyStrOpt st.access_token)]) := by
  refine ⟨?_, ?_, ?_, ?_⟩
  · intro env st m u b p req hmem
    rw [_request_resource_none hmem]
    rfl
  · intro env st m u b h p hfalse
    rcases _request_cases env st m u b h p with ⟨htok, heq⟩ | ⟨htok, hca⟩
    · rw [htok] at hfalse; exact absurd hfalse (by simp)
    · rcases hca with ⟨v, st1, tr, hga, heq⟩ | ⟨e2, st1, tr, hga, heq⟩
      · obtain ⟨r, hr⟩ := get_access_token_tr env st
        rw [hga] at hr
        dsimp only at hr
        rw [heq, sendRequest_tr_eq, hr]
        exact ⟨r, _, rfl⟩
      · obtain ⟨r, hr⟩ := get_access_token_tr env st
        rw [hga] at hr
        rw [heq]
        dsimp only at hr ⊢
        rw [hr]
        exact ⟨r, [], rfl⟩
  · intro env st sess chunk s e t req hmem
    simp only [upload_chunk, decode_tr] at hmem
    rw [_request_resource_some hmem]
  · intro env st file_path file_bytes folder_id req hmem
    simp only [upload_file] at hmem
    by_cases hd : pyTruthy st.drive_id = false
    · rw [if_pos hd] at hmem
      simp at hmem
    · rw [if_neg hd, decode_tr] at hmem
      rw [_request_resource_some hmem]

/-- Concrete credentials for evaluating the model on closed inputs. -/
def creds0 : Credentials := ⟨"cid", "csecret", "tid", "contoso"⟩

/-- Concrete response body holding a token, an id and a name. -/
def body0 : Json :=
  Json.obj [("access_token", .str "tok123"), ("id", .str "site-1"), ("name", .str "new.txt")]

/-- Environment answering every request with status 200 and `body0`. -/
def env0 : Env := fun _ => ⟨200, body0, [7, 7]⟩

/-- Environment answering every request with status 304 (non-2xx, but below
the range `raise_for_status` raises for). -/
def env304 : Env := fun _ => ⟨304, body0, []⟩

/-- Environment answering every request with status 500. -/
def env500 : Env := fun _ => ⟨500, body0, []⟩

/-- A client with token, site and drive all cached. -/
def stReady : ClientState :=
  ⟨creds0, "https://graph.microsoft.com/v1.0", some "tok0", some "site0", some "drv0"⟩

/-- A client with token and site cached but no drive yet. -/
def stSite : ClientState :=
  ⟨creds0, "https://graph.microsoft.com/v1.0", some "tok0", some "site0", none⟩

/-- Drives listing with two drives. -/
def bodyDrives : Json :=
  Json.obj [("value", .arr [.obj [("id", .str "drv1")], .obj [("id", .str "drv2")]])]

/-- Environment serving the two-drive listing. -/
def envDrives : Env := fun _ => ⟨200, bodyDrives, []⟩

/-- Drives listing with no drives at all. -/
def bodyNoDrives : Json := Json.obj [("value", .arr [])]

/-- Environment serving the empty drive listing. -/
def envNoDrives : Env := fun _ => ⟨200, bodyNoDrives, []⟩

set_option maxRecDepth 8000 in
/-- C2 (counterexample): on a fresh client (no cached token), `upload_chunk`
does fetch the token on demand and caches `tok123`, but the request it then
issues carries `Authorization: Bearer None` — the header was interpolated
from the empty cache before the fetch — not the fetched token, and carries
no Content-Type header at all. -/
theorem bearer_header_counterexample :
    (upload_chunk env0 (initState creds0) "https://sess" [1, 2] 0 1 2).st.access_token
        = some "tok123" ∧
      (upload_chunk env0 (initState creds0) "https://sess" [1, 2] 0 1 2).tr
        = [.tokenCall ⟨"POST", "https://login.microsoftonline.com/tid/oauth2/v2.0/token", [],
              .form [("grant_type", "client_credentials"), ("client_id", "cid"),
                     ("client_secret", "csecret"),
                     ("scope", "https://graph.microsoft.com/.default")], []⟩,
            .resourceCall ⟨"PUT", "https://sess",
              [("Authorization", "Bearer None"), ("Content-Length", "2"),
               ("Content-Range", "bytes 0-1/2")], .raw [1, 2], []⟩] ∧
      ("Bearer None"
          ≠ "Bearer "
            ++ pyStrOpt (upload_chunk env0 (initState creds0) "https://sess"
                [1, 2] 0 1 2).st.access_token) ∧
      List.lookup "Content-Type"
          [("Authorization", "Bearer None"), ("Content-Length", "2"),
           ("Content-Range", "bytes 0-1/2")] = none :=
  ⟨rfl, rfl, by decide, rfl⟩

set_option maxRecDepth 8000 in
/-- C4 (counterexample): a 304 response is non-2xx, yet `get_file_metadata`
returns it as a success — no RemoteError is raised, the response is silently
passed through, because `raise_for_status` only raises for statuses in
[400, 600). -/
theorem non2xx_counterexample :
    (get_file_metadata env304 stReady "f1").res = .ok body0 ∧
      ¬(200 ≤ 304 ∧ 304 < 300) ∧ raisesForStatus 304 = false :=
  ⟨rfl, by decide, by decide⟩

set_option maxRecDepth 8000 in
/-- C8 (counterexample): a resource operation does not leave the cached
access token unchanged: on a fresh client (token cache empty) a resource
call fetches and caches the token as a side effect. -/
theorem resolved_context_counterexample :
    (initState creds0).access_token = none ∧
      (runOp (.cancelUploadSession "https://sess") env0 (initState creds0)).st.access_token
        = some "tok123" :=
  ⟨rfl, rfl⟩

set_option maxRecDepth 8000 in
/-- Witness for C1 at `delete_file` on a fresh client. -/
theorem drive_scope_context_error_witness :
    (runOp (.deleteFile "f1") env0 (initState creds0)).tr = [] ∧
      (runOp (.deleteFile "f1") env0 (initState creds0)).res
        = .error (.contextError "Drive ID not set.") :=
  ⟨(drive_scope_context_error (.deleteFile "f1") env0 (initState creds0) rfl rfl).2, rfl⟩

set_option maxRecDepth 8000 in
/-- Witness for C2 (amended) at `upload_chunk` with a cached token. -/
theorem bearer_header_attachment_witness :
    (⟨"PUT", "https://sess",
        [("Authorization", "Bearer tok0"), ("Content-Length", "2"),
         ("Content-Range", "bytes 0-1/2")], .raw [1, 2], []⟩ : HttpRequest).headers
      = [("Authorization", "Bearer " ++ pyStrOpt stReady.access_token),
         ("Content-Length", toString ([1, 2] : List Nat).length),
         ("Content-Range", "bytes " ++ toString (0 : Int) ++ "-" ++ toString (1 : Int)
            ++ "/" ++ toString (2 : Int))] :=
  bearer_header_attachment.2.2.1 env0 stReady "https://sess" [1, 2] 0 1 2
    ⟨"PUT", "https://sess",
      [("Authorization", "Bearer tok0"), ("Content-Length", "2"),
       ("Content-Range", "bytes 0-1/2")], .raw [1, 2], []⟩
    (by rw [show (upload_chunk env0 stReady "https://sess" [1, 2] 0 1 2).tr
          = [Effect.resourceCall ⟨"PUT", "https://sess",
              [("Authorization", "Bearer tok0"), ("Content-Length", "2"),
               ("Content-Range", "bytes 0-1/2")], .raw [1, 2], []⟩] from rfl]
        exact List.mem_singleton.mpr rfl)

set_option maxRecDepth 8000 in
/-- Witness for C3: two consecutive operations on a token-cached client. -/
theorem token_endpoint_not_reinvoked_witness :
    countTokenCalls ((runOp .getAllPages env0 stReady).tr
      ++ (runOp .getLists env0 (runOp .getAllPages env0 stReady).st).tr) = 0 :=
  token_endpoint_not_reinvoked .getAllPages .getLists env0 env0 stReady (by decide)

set_option maxRecDepth 8000 in
/-- Witness for C4 (amended): a 500 response surfaces as a RemoteError with
status and body, from a single request. -/
theorem resource_ops_remote_error_witness :
    (runOp (.getFileMetadata "f1") env500 stReady).res = .error (.httpError 500 body0) ∧
      (runOp (.getFileMetadata "f1") env500 stReady).tr.length = 1 := by
  obtain ⟨req, h1, h2⟩ :=
    resource_ops_remote_error (.getFileMetadata "f1") env500 stReady
      (by decide) (by decide) (fun _ => rfl)
  exact ⟨h2, by rw [h1]; rfl⟩

set_option maxRecDepth 8000 in
/-- Witness for C5 at concrete inputs. -/
theorem rename_file_patch_witness :
    rename_file env0 stReady "f1" "new.txt"
        = ⟨.ok body0, stReady,
            [.resourceCall ⟨"PATCH", "https://graph.microsoft.com/v1.0/drives/drv0/items/f1",
              [("Authorization", "Bearer tok0"), ("Content-Type", "application/json")],
              .json (.obj [("name", .str "new.txt")]), []⟩]⟩ ∧
      pyGetKey body0 "name" = .ok (.str "new.txt") :=
  rename_file_patch env0 stReady "f1" "new.txt" ⟨200, body0, [7, 7]⟩
    (by decide) (by decide) rfl (by decide) rfl

set_option maxRecDepth 8000 in
/-- Witness for C6 at concrete inputs. -/
theorem content_range_exact_witness :
    (upload_chunk env0 stReady "https://sess" [1, 2] 0 1 2).tr
      = [.resourceCall ⟨"PUT", "https://sess",
          [("Authorization", "Bearer tok0"), ("Content-Length", "2"),
           ("Content-Range", "bytes 0-1/2")], .raw [1, 2], []⟩] :=
  (content_range_exact env0 stReady "https://sess" [1, 2] 0 1 2).2 (by decide)

set_option maxRecDepth 8000 in
/-- Witness for C7: with two drives the first is cached and returned; with
none, an IndexError is raised. -/
theorem get_drive_id_first_drive_witness :
    get_drive_id envDrives stSite
        = ⟨.ok "drv1",
            ⟨creds0, "https://graph.microsoft.com/v1.0", some "tok0", some "site0", some "drv1"⟩,
            [.resourceCall ⟨"GET", "https://graph.microsoft.com/v1.0/sites/site0/drives",
              [("Authorization", "Bearer tok0"), ("Content-Type", "application/json")],
              .empty, []⟩]⟩ ∧
      (get_drive_id envNoDrives stSite).res = .error .indexError :=
  ⟨(get_drive_id_first_drive envDrives stSite (by decide) (by decide)
        ⟨200, bodyDrives, []⟩ rfl (by decide)).1
      (.obj [("id", .str "drv1")]) [.obj [("id", .str "drv2")]] "drv1" rfl rfl,
    (get_drive_id_first_drive envNoDrives stSite (by decide) (by decide)
        ⟨200, bodyNoDrives, []⟩ rfl (by decide)).2 rfl⟩

set_option maxRecDepth 8000 in
/-- Witness for C8 (amended): the frame property at a concrete operation. -/
theorem resource_ops_frame_witness :
    Frame stReady (runOp (.deleteFile "f1") env0 stReady).st :=
  resource_ops_frame (.deleteFile "f1") env0 stReady

set_option maxRecDepth 8000 in
/-- Witness for C9: `cancel_upload_session` on a site/drive-free client:
no ContextError, and the request goes straight to the session URL. -/
theorem session_ops_skip_context_witness :
    ((cancel_upload_session env0
        ⟨creds0, "https://graph.microsoft.com/v1.0", some "tok0", none, none⟩
        "https://sess").res
      ≠ .error (.contextError "Drive ID not set.")) ∧
      (cancel_upload_session env0
          ⟨creds0, "https://graph.microsoft.com/v1.0", some "tok0", none, none⟩
          "https://sess").tr
        = [.resourceCall ⟨"DELETE", "https://sess",
            [("Authorization", "Bearer tok0"), ("Content-Type", "application/json")],
            .empty, []⟩] :=
  ⟨(session_ops_skip_context env0
        ⟨creds0, "https://graph.microsoft.com/v1.0", some "tok0", none, none⟩
        "https://sess" [1, 2] 0 1 2).1.2.2 "Drive ID not set.",
    ((session_ops_skip_context env0
        ⟨creds0, "https://graph.microsoft.com/v1.0", some "tok0", none, none⟩
        "https://sess" [1, 2] 0 1 2).2 (by decide)).2.2⟩

set_option maxRecDepth 8000 in
/-- Witness for C10 at concrete inputs, including the default role. -/
theorem share_with_user_invite_body_witness :
    (share_with_user env0 stReady "f1" "user@contoso.com" "edit").tr
        = [.resourceCall ⟨"POST", "https://graph.microsoft.com/v1.0/drives/drv0/items/f1/invite",
            [("Authorization", "Bearer tok0"), ("Content-Type", "application/json")],
            .json (.obj
              [("recipients", .arr [.obj [("email", .str "user@contoso.com")]]),
               ("roles", .arr [.str "edit"]),
               ("requireSignIn", .bool true)]), []⟩] ∧
      share_with_user_default_role = "edit" :=
  ⟨(share_with_user_invite_body env0 stReady "f1" "user@contoso.com" "edit"
        (by decide)).2.1 (by decide),
    (share_with_user_invite_body env0 stReady "f1" "user@contoso.com" "edit"
        (by decide)).2.2⟩
